import Mathlib

/-!
Shallow embedding of the click-it reaction minigame
(src/public/click-it.js): layout engine, gesture recognizers and the
game state machine, with theorems checking the specification.

Conventions of the embedding:
* JS numbers used for geometry are modelled as exact rationals; the
  literals .30 and .45 of the source are the rationals 3/10 and 9/20.
* localStorage("best-score") is part of the modelled state.  JS
  Number(localStorage.getItem(..)) maps null (absent key) to 0, a
  numeric string to its value and any other string to NaN; this is the
  StoredScore.toNumber function below, with none playing the role of NaN.
* setTimeout / clearTimeout are modelled by a boolean
  actionTimeoutPending flag armed by doAction and cleared by end /
  nextAction; the timer callback body is the function actionTimeoutFire.
* getRandomAction() draws are passed as explicit parameters to the
  state-machine operations.
-/

namespace ClickIt

/-- Source constant ComponentMargin = 7. -/
def ComponentMargin : ℚ := 7

/-- Source constant ComponentSize = 24. -/
def ComponentSize : ℚ := 24

/-- Source constant MinLongDimension = (ComponentSize * 3) + (ComponentMargin * 4). -/
def MinLongDimension : ℚ := ComponentSize * 3 + ComponentMargin * 4

/-- Source constant MinShortDimension = ComponentSize + (ComponentMargin * 2). -/
def MinShortDimension : ℚ := ComponentSize + ComponentMargin * 2

/-- Source constant ShortDimensionToLong = MinLongDimension / MinShortDimension. -/
def ShortDimensionToLong : ℚ := MinLongDimension / MinShortDimension

/-- Source constant LongDimensionToShort = MinShortDimension / MinLongDimension. -/
def LongDimensionToShort : ℚ := MinShortDimension / MinLongDimension

/-- Source constant MinTimeForAction = 1500 (milliseconds). -/
def MinTimeForAction : Int := 1500

/-- The gameArea record {top, left, width, height, scale}. -/
structure GameArea where
  top : ℚ
  left : ℚ
  width : ℚ
  height : ℚ
  scale : ℚ
deriving Repr, DecidableEq

/-- The setupGameArea arrow function of the source, as a function of the
canvas (viewport) width and height.  The source classifies the viewport as
landscape exactly when canvas.width > canvas.height, clamps the
proportionate short dimension against the available space, takes maxima
against the hard minimum dimensions, computes the scale from the
orientation-specific minimum, and centers the play rectangle along the
non-pinned axis. -/
def setupGameArea (canvasWidth canvasHeight : ℚ) : GameArea :=
  let longDimension0 : ℚ :=
    if canvasWidth > canvasHeight then canvasWidth else canvasHeight
  let shortDimension0 : ℚ :=
    if canvasWidth > canvasHeight then canvasHeight else canvasWidth
  let proportionateShortDimension : ℚ := longDimension0 * LongDimensionToShort
  let longDimension : ℚ :=
    if proportionateShortDimension > shortDimension0 then
      shortDimension0 * ShortDimensionToLong
    else longDimension0
  let shortDimension : ℚ :=
    if proportionateShortDimension > shortDimension0 then shortDimension0
    else proportionateShortDimension
  if canvasWidth > canvasHeight then
    let width := max longDimension MinLongDimension
    let height := max shortDimension MinShortDimension
    { top := (canvasHeight - height) / 2, left := 0, width := width,
      height := height, scale := height / MinShortDimension }
  else
    let width := max shortDimension MinShortDimension
    let height := max longDimension MinLongDimension
    { top := 0, left := (canvasWidth - width) / 2, width := width,
      height := height, scale := height / MinLongDimension }

/-- The fields of a LabeledComponent recomputed by update(index). -/
structure LabeledLayout where
  size : ℚ
  margin : ℚ
  offset : ℚ
  labelX : ℚ
  labelY : ℚ
  labelSize : ℚ
deriving Repr, DecidableEq

/-- LabeledComponent.prototype.update(index): size and margin scale with
the game area, offset = (size + margin) * index, and the offset is added
to labelX unless the area is taller than wide, and to labelY unless the
area is wider than tall. -/
def LabeledComponent.update (ga : GameArea) (index : ℕ) : LabeledLayout :=
  let size := ComponentSize * ga.scale
  let margin := ComponentMargin * ga.scale
  let offset := (size + margin) * (index : ℚ)
  let halfSize := size / 2
  { size := size, margin := margin, offset := offset,
    labelX := ga.left + margin + halfSize +
      (if ga.height > ga.width then 0 else offset),
    labelY := ga.top + margin + halfSize +
      (if ga.width > ga.height then 0 else offset),
    labelSize := size * (0.2 : ℚ) }

/-- State of the TurnIt component relevant to gesture recognition:
its current size, the press coordinates and the press-started flag. -/
structure TurnItState where
  size : ℚ
  downX : ℚ
  downY : ℚ
  isPressStarted : Bool
deriving Repr, DecidableEq

/-- TurnIt.prototype.onMousePressed records the press coordinates. -/
def TurnIt.onMousePressed (c : TurnItState) (mouseX mouseY : ℚ) : TurnItState :=
  { c with downX := mouseX, downY := mouseY }

/-- TurnIt.prototype.onMouseReleased: with the press started, computes
xMove = max(mouseX, downX) - min(mouseX, downX) and likewise yMove, and
calls game.handleTurn() exactly when both exceed size * .30.  The
returned boolean is whether game.handleTurn() is invoked (at most once
per release). -/
def TurnIt.onMouseReleased (c : TurnItState) (mouseX mouseY : ℚ) : Bool :=
  if c.isPressStarted then
    let xMove := max mouseX c.downX - min mouseX c.downX
    let yMove := max mouseY c.downY - min mouseY c.downY
    let requiredMovement := c.size * (0.30 : ℚ)
    decide (xMove > requiredMovement) && decide (yMove > requiredMovement)
  else false

/-- State of the SlideIt component relevant to gesture recognition:
its current size, the press x-coordinate and the press-started flag. -/
structure SlideItState where
  size : ℚ
  downX : ℚ
  isPressStarted : Bool
deriving Repr, DecidableEq

/-- SlideIt.prototype.onMousePressed records the press x-coordinate. -/
def SlideIt.onMousePressed (c : SlideItState) (mouseX : ℚ) : SlideItState :=
  { c with downX := mouseX }

/-- SlideIt.prototype.onMouseReleased: with the press started, computes
xMove = max(mouseX, downX) - min(mouseX, downX) and calls
game.handleSlide() exactly when it exceeds size * .45; the vertical
coordinate is not consulted at all.  The returned boolean is whether
game.handleSlide() is invoked (at most once per release). -/
def SlideIt.onMouseReleased (c : SlideItState) (mouseX : ℚ) : Bool :=
  if c.isPressStarted then
    let xMove := max mouseX c.downX - min mouseX c.downX
    let requiredMovement := c.size * (0.45 : ℚ)
    decide (xMove > requiredMovement)
  else false

/-- The names of the three actions in the Actions catalog. -/
inductive ActionName where
  | TAP
  | TURN
  | SLIDE
deriving Repr, DecidableEq

/-- The two screens of game.screens. -/
inductive ScreenName where
  | menu
  | game
deriving Repr, DecidableEq

/-- The raw value stored under localStorage key "best-score": absent,
a numeric string, or a non-numeric string. -/
inductive StoredScore where
  | absent
  | numeric (value : Int)
  | nonNumeric
deriving Repr, DecidableEq

/-- JS Number(localStorage.getItem("best-score")): Number(null) = 0 for
an absent key, a numeric string parses to its value, and a non-numeric
string gives NaN, modelled as none. -/
def StoredScore.toNumber : StoredScore → Option Int
  | .absent => some 0
  | .numeric v => some v
  | .nonNumeric => none

/-- The spec reads an absent or non-numeric stored value as 0 ("no best
score yet").  This definition follows the words of the spec, for
comparison against the behaviour of the code. -/
def specTreatedBest : StoredScore → Int
  | .numeric v => v
  | _ => 0

/-- The mutable fields of the Game instance touched by the state
machine, together with the modelled best-score storage and timer flag. -/
structure GameState where
  activeScreen : ScreenName
  score : Int
  additionalTimeForAction : Int
  expectedAction : Option ActionName
  isEnded : Bool
  actionTimeoutPending : Bool
  bestScoreStorage : StoredScore
deriving Repr, DecidableEq

/-- The Game constructor: menu screen, score = -1,
additionalTimeForAction = -1, expectedAction = null, isEnded = true, no
pending timeout.  The storage content is whatever it already was. -/
def Game.init (stored : StoredScore) : GameState :=
  { activeScreen := .menu, score := -1, additionalTimeForAction := -1,
    expectedAction := none, isEnded := true, actionTimeoutPending := false,
    bestScoreStorage := stored }

/-- Game.prototype.doAction: arms the round timeout (whose callback is
actionTimeoutFire) and speaks the instruction (external effect, not
modelled). -/
def Game.doAction (st : GameState) : GameState :=
  { st with actionTimeoutPending := true }

/-- Game.prototype.start: switch to the game screen, clear isEnded,
reset score to 0 and additionalTimeForAction to 3000, draw a random
expected action (passed here as the parameter), and doAction. -/
def Game.start (randomAction : ActionName) (st : GameState) : GameState :=
  Game.doAction
    { st with
      activeScreen := .game, isEnded := false, score := 0,
      additionalTimeForAction := 3000,
      expectedAction := some randomAction }

/-- The write condition of Game.prototype.end:
Number.isNaN(bestScore) || this.score > bestScore, where
bestScore = Number(localStorage.getItem("best-score")). -/
def Game.endWrites (st : GameState) : Bool :=
  match st.bestScoreStorage.toNumber with
  | none => true
  | some bestScore => decide (st.score > bestScore)

/-- Game.prototype.end: set isEnded, clear the pending timeout (the
actionTimeoutId >= 0 guard always passes in JS since null >= 0 is true),
persist the score when the write condition holds, and return to the menu
screen. -/
def Game.endGame (st : GameState) : GameState :=
  { st with
    isEnded := true, actionTimeoutPending := false,
    bestScoreStorage :=
      if Game.endWrites st then StoredScore.numeric st.score
      else st.bestScoreStorage,
    activeScreen := .menu }

/-- The setTimeout callback armed by doAction is () => this.end(). -/
def Game.actionTimeoutFire (st : GameState) : GameState := Game.endGame st

/-- Game.prototype.nextAction: a no-op when isEnded; otherwise clear the
pending timeout, increment the score, subtract 250 from
additionalTimeForAction when the incremented score is a multiple of 3
and the budget is at least 250, draw a new random expected action
(passed as the parameter), and doAction. -/
def Game.nextAction (randomAction : ActionName) (st : GameState) : GameState :=
  if st.isEnded then st
  else
    let st1 := { st with actionTimeoutPending := false }
    let newScore := st1.score + 1
    let newAdditional :=
      if newScore % 3 = 0 ∧ st1.additionalTimeForAction ≥ 250 then
        st1.additionalTimeForAction - 250
      else st1.additionalTimeForAction
    Game.doAction
      { st1 with
        score := newScore,
        additionalTimeForAction := newAdditional,
        expectedAction := some randomAction }

/-- Game.prototype.handleTap: nextAction when the expected action is
named TAP, end() otherwise.  (In the source expectedAction is null only
before the first start, when the game screen receives no input.) -/
def Game.handleTap (randomAction : ActionName) (st : GameState) : GameState :=
  if st.expectedAction = some ActionName.TAP then Game.nextAction randomAction st
  else Game.endGame st

/-- Game.prototype.handleTurn: nextAction when the expected action is
named TURN, end() otherwise. -/
def Game.handleTurn (randomAction : ActionName) (st : GameState) : GameState :=
  if st.expectedAction = some ActionName.TURN then Game.nextAction randomAction st
  else Game.endGame st

/-- Game.prototype.handleSlide: nextAction when the expected action is
named SLIDE, end() otherwise. -/
def Game.handleSlide (randomAction : ActionName) (st : GameState) : GameState :=
  if st.expectedAction = some ActionName.SLIDE then Game.nextAction randomAction st
  else Game.endGame st

/-- Dispatch of a recognized gesture of the given kind to the matching
handler of the source. -/
def Game.handleGesture (kind randomAction : ActionName) (st : GameState) :
    GameState :=
  match kind with
  | .TAP => Game.handleTap randomAction st
  | .TURN => Game.handleTurn randomAction st
  | .SLIDE => Game.handleSlide randomAction st

/-- States reachable from some start() call through gesture deliveries
and round-timeout firings. -/
inductive Game.Reachable : GameState → Prop where
  | start (a : ActionName) (st : GameState) : Game.Reachable (Game.start a st)
  | gesture (k a : ActionName) {st : GameState} :
      Game.Reachable st → Game.Reachable (Game.handleGesture k a st)
  | timeout {st : GameState} :
      Game.Reachable st → Game.Reachable (Game.actionTimeoutFire st)

/-- A state used as concrete input for C1: an active round with score 0
while the storage holds a non-numeric string. -/
def C1ex : GameState :=
  { activeScreen := .game, score := 0, additionalTimeForAction := 3000,
    expectedAction := some .TAP, isEnded := false, actionTimeoutPending := true,
    bestScoreStorage := .nonNumeric }

/-- A state used as concrete input for C5: a freshly started round
expecting a TAP. -/
def C5ex : GameState := Game.start .TAP (Game.init .absent)

/-! ## Helper lemmas -/

theorem MinLongDimension_eq : MinLongDimension = 100 := by
  norm_num [MinLongDimension, ComponentSize, ComponentMargin]

theorem MinShortDimension_eq : MinShortDimension = 38 := by
  norm_num [MinShortDimension, ComponentSize, ComponentMargin]

theorem LongDimensionToShort_eq : LongDimensionToShort = 19 / 50 := by
  norm_num [LongDimensionToShort, MinLongDimension_eq, MinShortDimension_eq]

theorem ShortDimensionToLong_eq : ShortDimensionToLong = 50 / 19 := by
  norm_num [ShortDimensionToLong, MinLongDimension_eq, MinShortDimension_eq]

/-- Core inequality of the layout: the short side of the play rectangle,
which is always 19/50 of the long side before clamping to the minimums,
stays strictly below the long side after the clamping. -/
theorem max_ratio_lt (L : ℚ) : max (L * (19 / 50)) 38 < max L 100 := by
  rcases le_or_lt L 100 with hL | hL
  · have h1 : L * (19 / 50) ≤ 38 := by linarith
    calc max (L * (19 / 50)) 38 = 38 := max_eq_right h1
    _ < 100 := by norm_num
    _ ≤ max L 100 := le_max_right L 100
  · have h1 : L * (19 / 50) < L := by linarith
    have h2 : (38 : ℚ) < L := by linarith
    calc max (L * (19 / 50)) 38 < L := max_lt h1 h2
    _ ≤ max L 100 := le_max_left L 100

/-- Doubling the unclamped dimension never shrinks the clamped one. -/
theorem max_le_max_two_mul (X M : ℚ) (hM : 0 < M) :
    max X M ≤ max (2 * X) M := by
  rcases le_or_lt X 0 with hx | hx
  · have h1 : max X M = M := max_eq_right (by linarith)
    have h2 : max (2 * X) M = M := max_eq_right (by linarith)
    rw [h1, h2]
  · exact max_le_max (by linarith) le_rfl

/-- A second call to end() never passes the write condition: either the
first call wrote the current score, or the stored value was numeric and
at least the score already. -/
theorem endWrites_endGame (st : GameState) :
    Game.endWrites (Game.endGame st) = false := by
  obtain ⟨scr, sc, add, ea, ie, pend, bs⟩ := st
  cases bs <;>
    simp only [Game.endGame, Game.endWrites, StoredScore.toNumber] <;>
    split_ifs <;>
    simp_all [StoredScore.toNumber]

theorem handleGesture_of_expected (k a : ActionName) (st : GameState)
    (hk : st.expectedAction = some k) :
    Game.handleGesture k a st = Game.nextAction a st := by
  cases k <;>
    simp [Game.handleGesture, Game.handleTap, Game.handleTurn, Game.handleSlide, hk]

theorem nextAction_additional_nonneg (a : ActionName) (st : GameState)
    (h : 0 ≤ st.additionalTimeForAction) :
    0 ≤ (Game.nextAction a st).additionalTimeForAction := by
  unfold Game.nextAction Game.doAction
  split_ifs <;> simp_all <;> omega

theorem handleGesture_additional_nonneg (k a : ActionName) (st : GameState)
    (h : 0 ≤ st.additionalTimeForAction) :
    0 ≤ (Game.handleGesture k a st).additionalTimeForAction := by
  cases k <;>
    unfold Game.handleGesture Game.handleTap Game.handleTurn Game.handleSlide <;>
    split_ifs <;>
    first
      | exact nextAction_additional_nonneg _ _ h
      | exact h

/-! ## Claim C1 -/

/-- C1 counterexample: ending a run with score 0 while the stored value
is non-numeric changes the persisted value (the code writes "0"), even
though the score does not strictly exceed the stored best as treated by
the spec (0 for a non-numeric value). -/
theorem C1_counterexample :
    (Game.endGame C1ex).bestScoreStorage ≠ C1ex.bestScoreStorage ∧
      ¬ C1ex.score > specTreatedBest C1ex.bestScoreStorage := by decide

/-- C1 amended: Game.end writes the persisted best score (equivalently,
changes the persisted value) exactly when the stored value is
non-numeric, or is numeric with the run's score strictly above it, an
absent value reading as 0; so a run whose score does not exceed a
numeric or absent stored best leaves the persisted value unchanged,
while a non-numeric stored value is always overwritten with the run's
score. -/
theorem C1_write_condition (st : GameState) :
    (Game.endGame st).bestScoreStorage ≠ st.bestScoreStorage ↔
      (st.bestScoreStorage.toNumber = none ∨
        ∃ b, st.bestScoreStorage.toNumber = some b ∧ st.score > b) := by
  obtain ⟨scr, sc, add, ea, ie, pend, bs⟩ := st
  cases bs <;>
    simp only [Game.endGame, Game.endWrites, StoredScore.toNumber] <;>
    split_ifs <;>
    simp_all <;>
    omega

/-! ## Claim C3 -/

/-- C3: the round-timeout callback is () => this.end(); running it on a
state on which end() has already run changes nothing: the score is not
touched, the write condition can no longer pass, and the active screen
stays the menu. -/
theorem C3_stale_timeout_noop (st : GameState) :
    Game.actionTimeoutFire (Game.endGame st) = Game.endGame st ∧
      (Game.endGame st).activeScreen = ScreenName.menu := by
  constructor
  · have hfw : Game.endWrites (Game.endGame st) = false := endWrites_endGame st
    show Game.endGame (Game.endGame st) = Game.endGame st
    obtain ⟨scr, sc, add, ea, ie, pend, bs⟩ := st
    cases bs <;>
      simp only [Game.endGame, Game.endWrites, StoredScore.toNumber] <;>
      split_ifs <;>
      simp_all [StoredScore.toNumber]
  · rfl

/-! ## Claim C4 -/

/-- C4: start() followed by three gestures, each matching the action
expected at that moment, yields score 3 and a time budget reduced by
exactly one 250 ms step from 3000 to 2750 (the reduction fires only on
the third point, when the score becomes a multiple of 3). -/
theorem C4_three_correct_gestures (st : GameState) (a0 a1 a2 a3 : ActionName) :
    (Game.handleGesture a2 a3
      (Game.handleGesture a1 a2
        (Game.handleGesture a0 a1 (Game.start a0 st)))).score = 3 ∧
    (Game.handleGesture a2 a3
      (Game.handleGesture a1 a2
        (Game.handleGesture a0 a1 (Game.start a0 st)))).additionalTimeForAction
      = 2750 := by
  rw [handleGesture_of_expected a0 a1 _ rfl]
  rw [handleGesture_of_expected a1 a2 _ rfl]
  rw [handleGesture_of_expected a2 a3 _ rfl]
  exact ⟨rfl, rfl⟩

/-! ## Claim C5 -/

/-- C5: a recognized gesture of some kind delivered to the state machine
runs nextAction (the advance path) exactly when the kind matches the
name of the expected action, and otherwise runs end() immediately. -/
theorem C5_gesture_dispatch (k a : ActionName) (st : GameState) :
    (st.expectedAction = some k →
      Game.handleGesture k a st = Game.nextAction a st) ∧
    (∀ k2, st.expectedAction = some k2 → k2 ≠ k →
      Game.handleGesture k a st = Game.endGame st) := by
  constructor
  · exact handleGesture_of_expected k a st
  · intro k2 hk2 hne
    cases k <;>
      simp [Game.handleGesture, Game.handleTap, Game.handleTurn,
        Game.handleSlide, hk2, hne]

/-- C5 witness: on a fresh round expecting TAP, a TAP gesture advances
and a SLIDE gesture ends the game. -/
theorem C5_witness :
    Game.handleGesture .TAP .TURN C5ex = Game.nextAction .TURN C5ex ∧
      Game.handleGesture .SLIDE .TAP C5ex = Game.endGame C5ex :=
  ⟨(C5_gesture_dispatch .TAP .TURN C5ex).1 rfl,
   (C5_gesture_dispatch .SLIDE .TAP C5ex).2 ActionName.TAP rfl (by decide)⟩

/-! ## Claim C7 -/

/-- C7: the time budget never becomes negative on any state reachable
through the state machine; start() sets it to 3000; and a correct action
(nextAction on a live round) subtracts exactly 250 precisely when the
incremented score is a multiple of 3 and the budget is at least 250,
leaving it unchanged otherwise. -/
theorem C7_time_budget :
    (∀ st, Game.Reachable st → 0 ≤ st.additionalTimeForAction) ∧
    (∀ (a : ActionName) (st : GameState),
      (Game.start a st).additionalTimeForAction = 3000) ∧
    (∀ (a : ActionName) (st : GameState), st.isEnded = false →
      (Game.nextAction a st).additionalTimeForAction =
        if (st.score + 1) % 3 = 0 ∧ 250 ≤ st.additionalTimeForAction then
          st.additionalTimeForAction - 250
        else st.additionalTimeForAction) := by
  refine ⟨?_, fun a st => rfl, ?_⟩
  · intro st h
    induction h with
    | start a st => norm_num [Game.start, Game.doAction]
    | gesture k a hst ih => exact handleGesture_additional_nonneg k a _ ih
    | timeout hst ih => exact ih
  · intro a st hie
    unfold Game.nextAction Game.doAction
    rw [if_neg (by simp [hie])]

/-- C7 witness: a fresh start has a nonnegative budget, and the first
correct action leaves the budget at 3000 by the step rule. -/
theorem C7_witness :
    0 ≤ (Game.start ActionName.TAP (Game.init StoredScore.absent)).additionalTimeForAction ∧
    (Game.nextAction ActionName.TURN
        (Game.start ActionName.TAP (Game.init StoredScore.absent))).additionalTimeForAction =
      (if ((Game.start ActionName.TAP (Game.init StoredScore.absent)).score + 1) % 3 = 0 ∧
          250 ≤ (Game.start ActionName.TAP (Game.init StoredScore.absent)).additionalTimeForAction then
        (Game.start ActionName.TAP (Game.init StoredScore.absent)).additionalTimeForAction - 250
      else (Game.start ActionName.TAP (Game.init StoredScore.absent)).additionalTimeForAction) :=
  ⟨C7_time_budget.1 _ (Game.Reachable.start ActionName.TAP (Game.init StoredScore.absent)),
   C7_time_budget.2.2 ActionName.TURN (Game.start ActionName.TAP (Game.init StoredScore.absent)) rfl⟩

/-! ## Claim C2 -/

/-- C2: with the press started, a release of the Turn component fires
the turn event exactly when BOTH the horizontal and the vertical
displacement from the press point strictly exceed 30% of the component's
current size; a purely horizontal or purely vertical drag never fires,
and a qualifying release fires exactly once (the recognizer calls
game.handleTurn a single time). -/
theorem C2_turn_fires_iff (c : TurnItState) (upX upY : ℚ)
    (hp : c.isPressStarted = true) :
    TurnIt.onMouseReleased c upX upY = true ↔
      (|upX - c.downX| > (0.30 : ℚ) * c.size ∧
        |upY - c.downY| > (0.30 : ℚ) * c.size) := by
  unfold TurnIt.onMouseReleased
  rw [if_pos hp]
  simp only [Bool.and_eq_true, decide_eq_true_eq]
  rw [max_sub_min_eq_abs, max_sub_min_eq_abs, mul_comm c.size ((0.30 : ℚ)),
    abs_sub_comm c.downX upX, abs_sub_comm c.downY upY]

/-- C2 witness: on a component of size 100, a release displaced by
(31, 31) from the press fires. -/
theorem C2_witness :
    TurnIt.onMouseReleased
      { size := 100, downX := 0, downY := 0, isPressStarted := true } 31 31 = true :=
  (C2_turn_fires_iff
    { size := 100, downX := 0, downY := 0, isPressStarted := true } 31 31 rfl).mpr
    (by norm_num)

/-! ## Claim C6 -/

/-- C6: with the press started, a release of the Slide component fires
the slide event exactly when the horizontal displacement from the press
point strictly exceeds 45% of the component's current size; the vertical
coordinate plays no role at all (the recognizer does not even receive
it). -/
theorem C6_slide_fires_iff (c : SlideItState) (upX : ℚ)
    (hp : c.isPressStarted = true) :
    SlideIt.onMouseReleased c upX = true ↔
      |upX - c.downX| > (0.45 : ℚ) * c.size := by
  unfold SlideIt.onMouseReleased
  rw [if_pos hp]
  simp only [decide_eq_true_eq]
  rw [max_sub_min_eq_abs, mul_comm c.size ((0.45 : ℚ)), abs_sub_comm c.downX upX]

/-- C6 witness: on a component of size 100, a release displaced by 46
fires, and one displaced by 44 does not. -/
theorem C6_witness :
    SlideIt.onMouseReleased { size := 100, downX := 0, isPressStarted := true } 46 = true :=
  (C6_slide_fires_iff { size := 100, downX := 0, isPressStarted := true } 46 rfl).mpr
    (by norm_num)

/-- In portrait (width not exceeding height) the laid-out game area is
strictly taller than wide, for every viewport. -/
theorem setupGameArea_height_gt_width (w h : ℚ) (hwh : ¬ w > h) :
    (setupGameArea w h).width < (setupGameArea w h).height := by
  simp only [setupGameArea, MinLongDimension_eq, MinShortDimension_eq,
    LongDimensionToShort_eq, ShortDimensionToLong_eq, if_neg hwh]
  by_cases hc : h * (19 / 50) > w
  · simp only [if_pos hc]
    have hw : w = w * (50 / 19) * (19 / 50) := by ring
    calc max w 38 = max (w * (50 / 19) * (19 / 50)) 38 := by rw [← hw]
    _ < max (w * (50 / 19)) 100 := max_ratio_lt _
  · simp only [if_neg hc]
    exact max_ratio_lt h

/-- In landscape (width exceeding height) the laid-out game area is
strictly wider than tall, for every viewport. -/
theorem setupGameArea_width_gt_height (w h : ℚ) (hwh : w > h) :
    (setupGameArea w h).height < (setupGameArea w h).width := by
  simp only [setupGameArea, MinLongDimension_eq, MinShortDimension_eq,
    LongDimensionToShort_eq, ShortDimensionToLong_eq, if_pos hwh]
  by_cases hc : w * (19 / 50) > h
  · simp only [if_pos hc]
    have hh : h = h * (50 / 19) * (19 / 50) := by ring
    calc max h 38 = max (h * (50 / 19) * (19 / 50)) 38 := by rw [← hh]
    _ < max (h * (50 / 19)) 100 := max_ratio_lt _
  · simp only [if_neg hc]
    exact max_ratio_lt w

/-! ## Claim C8 -/

/-- C8: for a viewport at least as large as the minimum dimensions, the
layout keeps the game area at least as large as the per-orientation
minimums, the scale at least 1, and pins one axis to the edge while
exactly centering the other: in portrait top = 0 and
left = (viewportWidth - width) / 2, in landscape left = 0 and
top = (viewportHeight - height) / 2. -/
theorem C8_layout_bounds (w h : ℚ)
    (hlong : MinLongDimension ≤ max w h) (hshort : MinShortDimension ≤ min w h) :
    1 ≤ (setupGameArea w h).scale ∧
    (¬ w > h →
      MinShortDimension ≤ (setupGameArea w h).width ∧
      MinLongDimension ≤ (setupGameArea w h).height ∧
      (setupGameArea w h).left = (w - (setupGameArea w h).width) / 2 ∧
      (setupGameArea w h).top = 0) ∧
    (w > h →
      MinLongDimension ≤ (setupGameArea w h).width ∧
      MinShortDimension ≤ (setupGameArea w h).height ∧
      (setupGameArea w h).top = (h - (setupGameArea w h).height) / 2 ∧
      (setupGameArea w h).left = 0) := by
  by_cases hwh : w > h
  · refine ⟨?_, fun hn => absurd hwh hn, fun _ => ?_⟩
    · simp only [setupGameArea, MinLongDimension_eq, MinShortDimension_eq,
        LongDimensionToShort_eq, ShortDimensionToLong_eq, if_pos hwh]
      rw [one_le_div (by norm_num : (0 : ℚ) < 38)]
      exact le_max_right _ _
    · simp only [setupGameArea, MinLongDimension_eq, MinShortDimension_eq,
        LongDimensionToShort_eq, ShortDimensionToLong_eq, if_pos hwh]
      exact ⟨le_max_right _ _, le_max_right _ _, trivial, trivial⟩
  · refine ⟨?_, fun _ => ?_, fun hp => absurd hp hwh⟩
    · simp only [setupGameArea, MinLongDimension_eq, MinShortDimension_eq,
        LongDimensionToShort_eq, ShortDimensionToLong_eq, if_neg hwh]
      rw [one_le_div (by norm_num : (0 : ℚ) < 100)]
      exact le_max_right _ _
    · simp only [setupGameArea, MinLongDimension_eq, MinShortDimension_eq,
        LongDimensionToShort_eq, ShortDimensionToLong_eq, if_neg hwh]
      exact ⟨le_max_right _ _, le_max_right _ _, trivial, trivial⟩

/-- C8 witness: a 667 by 375 landscape viewport, which meets both
minimum dimensions, gets a scale of at least 1. -/
theorem C8_witness : 1 ≤ (setupGameArea 667 375).scale :=
  (C8_layout_bounds 667 375
    (by rw [MinLongDimension_eq]; norm_num [max_def])
    (by rw [MinShortDimension_eq]; norm_num [min_def])).1

/-! ## Claim C9 -/

/-- C9: doubling both viewport dimensions never decreases the computed
scale: orientation and the clamping branch are unchanged by doubling, so
the pre-clamp dimension doubles and the max against the fixed minimum
cannot shrink. -/
theorem C9_scale_monotone (w h : ℚ) :
    (setupGameArea w h).scale ≤ (setupGameArea (2 * w) (2 * h)).scale := by
  by_cases hwh : w > h
  · have hwh2 : 2 * w > 2 * h := by linarith
    by_cases hc : w * (19 / 50) > h
    · have hc2 : 2 * w * (19 / 50) > 2 * h := by linarith
      simp only [setupGameArea, MinLongDimension_eq, MinShortDimension_eq,
        LongDimensionToShort_eq, ShortDimensionToLong_eq, if_pos hwh,
        if_pos hwh2, if_pos hc, if_pos hc2]
      rw [div_le_div_iff_of_pos_right (by norm_num : (0 : ℚ) < 38)]
      exact max_le_max_two_mul h 38 (by norm_num)
    · have hc2 : ¬ 2 * w * (19 / 50) > 2 * h := by
        intro hcon
        exact hc (by linarith)
      simp only [setupGameArea, MinLongDimension_eq, MinShortDimension_eq,
        LongDimensionToShort_eq, ShortDimensionToLong_eq, if_pos hwh,
        if_pos hwh2, if_neg hc, if_neg hc2]
      rw [div_le_div_iff_of_pos_right (by norm_num : (0 : ℚ) < 38)]
      have he : 2 * w * (19 / 50) = 2 * (w * (19 / 50)) := by ring
      rw [he]
      exact max_le_max_two_mul (w * (19 / 50)) 38 (by norm_num)
  · have hwh2 : ¬ 2 * w > 2 * h := by
      intro hcon
      exact hwh (by linarith)
    by_cases hc : h * (19 / 50) > w
    · have hc2 : 2 * h * (19 / 50) > 2 * w := by linarith
      simp only [setupGameArea, MinLongDimension_eq, MinShortDimension_eq,
        LongDimensionToShort_eq, ShortDimensionToLong_eq, if_neg hwh,
        if_neg hwh2, if_pos hc, if_pos hc2]
      rw [div_le_div_iff_of_pos_right (by norm_num : (0 : ℚ) < 100)]
      have he : 2 * w * (50 / 19) = 2 * (w * (50 / 19)) := by ring
      rw [he]
      exact max_le_max_two_mul (w * (50 / 19)) 100 (by norm_num)
    · have hc2 : ¬ 2 * h * (19 / 50) > 2 * w := by
        intro hcon
        exact hc (by linarith)
      simp only [setupGameArea, MinLongDimension_eq, MinShortDimension_eq,
        LongDimensionToShort_eq, ShortDimensionToLong_eq, if_neg hwh,
        if_neg hwh2, if_neg hc, if_neg hc2]
      rw [div_le_div_iff_of_pos_right (by norm_num : (0 : ℚ) < 100)]
      exact max_le_max_two_mul h 100 (by norm_num)

/-! ## Claim C10 -/

/-- C10: the laid-out game area is never square: it is strictly taller
than wide in portrait and strictly wider than tall in landscape, so of
the two tests height > width and width > height exactly one holds, and
the component update applies the index-derived offset along exactly one
axis (labelX keeps the base position when the area is taller than wide,
labelY keeps it when the area is wider than tall) — never diagonally. -/
theorem C10_single_axis_offset (w h : ℚ) (i : ℕ) :
    ((setupGameArea w h).height > (setupGameArea w h).width ∧
      ¬ (setupGameArea w h).width > (setupGameArea w h).height ∧
      (LabeledComponent.update (setupGameArea w h) i).labelX =
        (setupGameArea w h).left +
          (LabeledComponent.update (setupGameArea w h) i).margin +
          (LabeledComponent.update (setupGameArea w h) i).size / 2 ∧
      (LabeledComponent.update (setupGameArea w h) i).labelY =
        (setupGameArea w h).top +
          (LabeledComponent.update (setupGameArea w h) i).margin +
          (LabeledComponent.update (setupGameArea w h) i).size / 2 +
          (LabeledComponent.update (setupGameArea w h) i).offset) ∨
    ((setupGameArea w h).width > (setupGameArea w h).height ∧
      ¬ (setupGameArea w h).height > (setupGameArea w h).width ∧
      (LabeledComponent.update (setupGameArea w h) i).labelX =
        (setupGameArea w h).left +
          (LabeledComponent.update (setupGameArea w h) i).margin +
          (LabeledComponent.update (setupGameArea w h) i).size / 2 +
          (LabeledComponent.update (setupGameArea w h) i).offset ∧
      (LabeledComponent.update (setupGameArea w h) i).labelY =
        (setupGameArea w h).top +
          (LabeledComponent.update (setupGameArea w h) i).margin +
          (LabeledComponent.update (setupGameArea w h) i).size / 2) := by
  by_cases hwh : w > h
  · have hlt := setupGameArea_width_gt_height w h hwh
    right
    refine ⟨hlt, lt_asymm hlt, ?_, ?_⟩
    · simp only [LabeledComponent.update, if_neg (lt_asymm hlt)]
    · simp only [LabeledComponent.update, if_pos hlt, add_zero]
  · have hlt := setupGameArea_height_gt_width w h hwh
    left
    refine ⟨hlt, lt_asymm hlt, ?_, ?_⟩
    · simp only [LabeledComponent.update, if_pos hlt, add_zero]
    · simp only [LabeledComponent.update, if_neg (lt_asymm hlt)]

end ClickIt
